import Mathlib

/-!
# A verification development for the eoreader band-resolution pipeline

Shallow embedding of the parts of the eoreader code base that the checked
properties talk about: the spectral-index evaluator (`eoreader/bands/index.py`),
the Sentinel-2 product pipeline (`eoreader/products/optical/s2_product.py`),
the Sentinel-3 product pipeline (`eoreader/products/optical/s3_product.py`)
and the RADARSAT-2 product (`eoreader/products/sar/rs2_product.py`).

Machine values are modelled exactly: a pixel of a numpy masked array is an
`Option ℚ` (`none` is a masked pixel, i.e. the nodata sentinel), Python
exceptions become an explicit `Except PyErr` result, and defensive fallbacks
are traced branch by branch from the source.
-/

namespace EOReader

/-- The Python exceptions that appear in the modelled code paths. -/
inductive PyErr
  | invalidProductError (msg : String)
  | invalidTypeError (msg : String)
  | typeError
  | valueError
  | attributeError
  | notImplementedError
  | keyError
  deriving DecidableEq

/-- The result of `lxml` `findtext` as seen by `float(...)`: the element text
may be missing (`findtext` returns `None`), present but not a number, or a
number. -/
inductive XmlText
  | absent
  | malformed
  | num (q : ℚ)
  deriving DecidableEq

/-- Python `float()` applied to a `findtext` result: `float(None)` raises
`TypeError`, `float` of a non-numeric string raises `ValueError`. -/
def pyFloat : XmlText → Except PyErr ℚ
  | .absent => .error .typeError
  | .malformed => .error .valueError
  | .num q => .ok q

/-! ## Spectral index evaluator (`eoreader/bands/index.py`)

The index functions receive `np.ma.masked_array` operands (see the type
hints of `_norm_diff` and of every index function).  A pixel is `Option ℚ`:
`none` is a masked pixel.  `index.py` line 27 sets
`np.seterr(divide="ignore", invalid="ignore")`, and `np.divide` on masked
arrays applies the safe-divide domain, so a zero denominator produces a
masked pixel instead of raising. -/

/-- One pixel of a masked array. -/
abbrev Px := Option ℚ

/-- A (flattened) masked array. -/
abbrev MArr := List Px

/-- Elementwise masked binary operation: masks propagate. -/
def maskedBin (f : ℚ → ℚ → ℚ) : Px → Px → Px
  | some a, some b => some (f a b)
  | _, _ => none

/-- Elementwise masked `+`. -/
def npAdd (a b : MArr) : MArr := List.zipWith (maskedBin (· + ·)) a b

/-- Elementwise masked `-`. -/
def npSub (a b : MArr) : MArr := List.zipWith (maskedBin (· - ·)) a b

/-- `np.divide` on masked arrays.  With `np.seterr(divide="ignore",
invalid="ignore")` no floating-point exception is raised; a pixel whose
denominator is zero falls in the safe-divide domain and comes out masked. -/
def npDiv (a b : MArr) : MArr :=
  List.zipWith
    (fun x y =>
      match x, y with
      | some u, some v => if v = 0 then none else some (u / v)
      | _, _ => none)
    a b

/-- The optical band names used by the index formulas
(`eoreader.bands.bands.OpticalBandNames`). -/
inductive Obn
  | CA | BLUE | GREEN | RED | NIR | NARROW_NIR
  | VRE_1 | VRE_2 | VRE_3 | SWIR_1 | SWIR_2 | SWIR_CIRRUS | WV
  deriving DecidableEq

/-- The `bands` dict handed to an index function: band name to masked array. -/
abbrev Bands := List (Obn × MArr)

/-- `bands[obn.X]`: a missing key raises `KeyError`. -/
def getBand (bands : Bands) (b : Obn) : Except PyErr MArr :=
  match bands.lookup b with
  | some arr => .ok arr
  | none => .error .keyError

/-- `_norm_diff(band_1, band_2)` from `index.py` lines 51-67:
`np.divide(band_1 - band_2, band_1 + band_2)` (the `rasters.set_metadata`
call only restores georeferencing attributes and is the identity on pixel
values). -/
def normDiff (band_1 band_2 : MArr) : MArr :=
  npDiv (npSub band_1 band_2) (npAdd band_1 band_2)

/-- `NDVI(bands)` from `index.py` line 97, exactly as written in the source:
`np.divide(bands[obn.NIR], bands[obn.RED])`. -/
def NDVI (bands : Bands) : Except PyErr MArr := do
  let nir ← getBand bands .NIR
  let red ← getBand bands .RED
  .ok (npDiv nir red)

/-- Modelled from the spec: the NDVI formula the specification (and the
function's own docstring, "Normalized Difference Vegetation Index") states,
namely `_norm_diff(bands[obn.NIR], bands[obn.RED])`, i.e.
`(NIR - RED) / (NIR + RED)`. -/
def NDVI_spec (bands : Bands) : Except PyErr MArr := do
  let nir ← getBand bands .NIR
  let red ← getBand bands .RED
  .ok (normDiff nir red)

/-! ## Sentinel-2 radiometric conversion (`_to_reflectance`, s2_product.py 636-707) -/

/-- Sentinel-2 product types (`S2ProductType`). -/
inductive S2PType
  | L1C | L2A
  deriving DecidableEq

/-- The `id` field of the Sentinel-2 band map built by `_map_bands`
(s2_product.py lines 218-280); the L2A map has no SWIR_CIRRUS entry. -/
def s2BandId (pt : S2PType) : Obn → Option String
  | .CA => some "01"
  | .BLUE => some "02"
  | .GREEN => some "03"
  | .RED => some "04"
  | .VRE_1 => some "05"
  | .VRE_2 => some "06"
  | .VRE_3 => some "07"
  | .NIR => some "8A"
  | .NARROW_NIR => some "08"
  | .WV => some "09"
  | .SWIR_1 => some "11"
  | .SWIR_2 => some "12"
  | .SWIR_CIRRUS => if pt = .L1C then some "10" else none

/-- Python `int()` on a string: decimal digits parse, anything else raises
`ValueError` (so `int("8A")` raises, which is why the source special-cases
the band with id `8A`). -/
def pyInt (s : String) : Except PyErr ℤ :=
  if s.length ≠ 0 ∧ s.toList.all Char.isDigit then
    .ok (s.toList.foldl (fun acc c => acc * 10 + ((c.toNat : ℤ) - 48)) 0)
  else .error .valueError

/-- The datatake metadata document (`MTD_MSI*.xml`) as queried by
`_to_reflectance`: the `(BOA_)QUANTIFICATION_VALUE` text and the
`(BOA_|RADIO_)ADD_OFFSET[@band_id = i]` text per band id. -/
structure DatatakeMtd where
  quantificationValue : XmlText
  addOffset : ℤ → XmlText

/-- The slice of `S2Product` state that `_to_reflectance` reads. -/
structure S2RState where
  ptype : S2PType
  baseline : ℚ
  /-- `none`: `read_datatake_mtd` raises `InvalidProductError`. -/
  datatake : Option DatatakeMtd
  /-- `self.base_no_data_val` (0 at construction). -/
  baseNoData : ℚ

/-- The try-block of `_to_reflectance` (s2_product.py lines 656-693)
computing `(offset, quantif_value)`.  `TypeError` from `float(None)` is
re-raised as `InvalidProductError`; a `ValueError` from `float` or `int` of
junk text, and the `AttributeError` from taking `.id` on a band missing
from the map, are not caught and propagate. -/
def s2OffsetQuantif (st : S2RState) (band : Obn) : Except PyErr (ℚ × ℚ) :=
  match st.datatake with
  | none => .error (.invalidProductError "datatake metadata not found")
  | some root =>
    match pyFloat root.quantificationValue with
    | .error .typeError =>
        .error (.invalidProductError "QUANTIFICATION_VALUE not found in datatake metadata!")
    | .error e => .error e
    | .ok quantif =>
      if st.baseline < 4 then .ok (0, quantif)
      else
        match
          (if band = .NIR then (.ok 8 : Except PyErr ℤ)
           else
             match s2BandId st.ptype band with
             | some s => pyInt s
             | none => .error .attributeError) with
        | .error e => .error e
        | .ok bandId =>
          match pyFloat (root.addOffset bandId) with
          | .error .typeError =>
              .error (.invalidProductError "ADD_OFFSET not found in datatake metadata!")
          | .error e => .error e
          | .ok offset => .ok (offset, quantif)

/-- `_to_reflectance` (s2_product.py lines 636-707).  For a `.jp2` band the
raw array becomes `(raw + offset) / quantif_value`; when the try-block ends
in `InvalidProductError` the fallback constants are `offset = 0.0` for
processing baselines below 4.0, `offset = -1000.0` otherwise, with
`quantif_value = 10000.0`; and `self.no_data_val[band]` is recorded as
`(self.base_no_data_val + offset) / quantif_value`.  Non-jp2 paths return
the array unchanged and record nothing.  The result pairs the converted
array with the recorded no-data value. -/
def toReflectance (st : S2RState) (bandArr : List ℚ) (band : Obn)
    (pathIsJp2 : Bool) : Except PyErr (List ℚ × Option ℚ) :=
  if pathIsJp2 then
    match
      (match s2OffsetQuantif st band with
       | .error (.invalidProductError _) =>
           (.ok (if st.baseline < 4 then (0 : ℚ) else -1000, (10000 : ℚ)) :
             Except PyErr (ℚ × ℚ))
       | r => r) with
    | .error e => .error e
    | .ok (offset, quantif) =>
        .ok (bandArr.map (fun v => (v + offset) / quantif),
             some ((st.baseNoData + offset) / quantif))
  else .ok (bandArr, none)

/-! ## Memoized accessors: `crs()` on S2 and S3 products -/

/-- Modelled from the spec: the `@cache` decorator (`eoreader/cache.py`, not
under `src/`) memoizes a no-argument accessor for the lifetime of the
Product instance: the first call computes and stores the value, every later
call returns the stored value without recomputing. -/
structure Memo (α : Type) where
  val : Option α
  deriving DecidableEq

/-- One call through the memo: `compute` yields the value together with the
number of underlying metadata reads it performs; the `ℕ` component of the
state accumulates the total reads performed so far on this instance. -/
def cachedCall {α : Type} (compute : Unit → α × ℕ) :
    Memo α × ℕ → α × (Memo α × ℕ)
  | (⟨some v⟩, n) => (v, ⟨some v⟩, n)
  | (⟨none⟩, n) =>
    let r := compute ()
    (r.1, ⟨some r.1⟩, n + r.2)

/-- The slice of `S2Product` state that `crs` reads. -/
structure S2CrsState where
  baseline : ℚ
  /-- `some cs`: `read_mtd` succeeds and `HORIZONTAL_CS_CODE` is found;
  `none`: `read_mtd` raises `InvalidProductError` (broken XML). -/
  horizontalCsCode : Option String
  /-- e.g. "T30TTK". -/
  tileName : List Char
  /-- The value `super().crs()` (OpticalProduct, not under `src/`) returns. -/
  superCrs : String
  deriving DecidableEq

/-- The broken-XML fallback of `S2Product.crs` (s2_product.py lines
305-309): `utm_nb = tile_name[1:3]`, `utm_letter = tile_name[3]`,
hemisphere digit 6 when the letter compares above "N" else 7, giving
`f"epsg:32{utm_hemisphere}{utm_nb}"`. -/
def s2CrsFromTile (tile : List Char) : String :=
  let utmNb : List Char := (tile.drop 1).take 2
  let utmLetter : Char := (tile.get? 3).getD 'A'
  let hemi : ℕ := if utmLetter > 'N' then 6 else 7
  "epsg:32" ++ toString hemi ++ String.mk utmNb

/-- The body of `S2Product.crs` (s2_product.py lines 284-313) without its
`@cache` decorator, with the number of metadata reads it performs (one:
either `read_mtd`, or the one read behind `super().crs()`, itself modelled
from the spec since `OpticalProduct` is not under `src/`). -/
def s2CrsCompute (st : S2CrsState) : String × ℕ :=
  (if st.baseline < 207 / 100 then
    match st.horizontalCsCode with
    | some cs => cs
    | none => s2CrsFromTile st.tileName
  else st.superCrs, 1)

/-- `S2Product.crs` as deployed: the body above behind the `@cache` memo. -/
def s2Crs (st : S2CrsState) (cacheSt : Memo String × ℕ) :
    String × (Memo String × ℕ) :=
  cachedCall (fun _ => s2CrsCompute st) cacheSt

/-- Modelled from the spec: `sertit.vectors.corresponding_utm_projection`
(external collaborator): the EPSG code of the UTM zone containing the given
center coordinate. -/
def utmProj (lat lon : ℚ) : String :=
  let zone : ℤ := ⌊(lon + 180) / 6⌋ + 1
  (if 0 ≤ lat then "epsg:326" else "epsg:327") ++ toString zone

/-- One call of `S3Product.crs` (s3_product.py lines 238-268).  The method
has no `@cache` decorator: every call re-reads the tie-point latitude and
longitude netCDF arrays (`_read_nc` twice, hence 2 reads per call), takes
the value in the middle of the grid (`mid_x = x.size / 2`,
`mid_y = y.size / 2`) and deduces the UTM projection from it. -/
def s3CrsCall (lat lon : List (List ℚ)) : String × ℕ :=
  let midX := (lat.head?.getD []).length / 2
  let midY := lat.length / 2
  let midLat := (((lat.get? midY).getD []).get? midX).getD 0
  let midLon := (((lon.get? midY).getD []).get? midX).getD 0
  (utmProj midLat midLon, 2)

/-- Two sequential `crs()` calls on the same S3 product instance: the two
returned values and the total number of netCDF reads performed. -/
def s3CrsTwice (lat lon : List (List ℚ)) : (String × String) × ℕ :=
  let c1 := s3CrsCall lat lon
  let c2 := s3CrsCall lat lon
  ((c1.1, c2.1), c1.2 + c2.2)

/-! ## RADARSAT-2 default pixel spacing (`Rs2Product._set_resolution`) -/

/-- `Rs2SensorMode` (rs2_product.py lines 69-138).  Note that the
enumeration has members `FQ` and `WFQ`, but no member `WQ`. -/
inductive Rs2SensorMode
  | S | W | F | WF | MF | WMF | XF | U | WU | EH | EL | SQ | WSQ | FQ | WFQ
  | SCN | SCW | OSVN | DVWF | SLA
  deriving DecidableEq

/-- `Rs2ProductType` (rs2_product.py lines 35-66). -/
inductive Rs2ProductType
  | SLC | SGX | SGF | SCN | SCW | SCF | SCS | SSG | SPG
  deriving DecidableEq

/-- Outcome of the metadata probe for `sampledPixelSpacing` in
`_set_resolution` (rs2_product.py lines 166-176). -/
inductive Rs2Spacing
  /-- `read_mtd` raises `InvalidProductError` (caught, `pass`). -/
  | noMtd
  /-- No `imageAttributes` element: the loop never assigns `def_res`. -/
  | noImageAttrs
  /-- `rasterAttributes` missing: `AttributeError` (caught, `pass`). -/
  | noRasterAttrs
  /-- The `findtext` result handed to `float()`. -/
  | text (t : XmlText)
  deriving DecidableEq

/-- The guarded metadata read of `_set_resolution`: the `except` clause
lists `InvalidProductError` and `AttributeError` only, so the `TypeError`
from `float(None)` (field element present but empty lookup) and a
`ValueError` from `float` of junk text propagate. -/
def rs2ReadDefRes : Rs2Spacing → Except PyErr (Option ℚ)
  | .noMtd => .ok none
  | .noImageAttrs => .ok none
  | .noRasterAttrs => .ok none
  | .text t =>
    match pyFloat t with
    | .ok q => .ok (some q)
    | .error e => .error e

/-- The survival-mode branch chain of `_set_resolution` (rs2_product.py
lines 179-210).  The test at line 194 evaluates the Python list literal
`[Rs2SensorMode.FQ, Rs2SensorMode.WQ]`; `Rs2SensorMode` has no member `WQ`,
so every sensor mode that reaches this test raises `AttributeError`, and
the branches written below it (`NotImplementedError` for SQ/WSQ, 25.0 for
SCN, 50.0 for SCW, 40.0/20.0 for DVWF, the duplicated SCW branch, and the
final `raise InvalidTypeError` for unknown modes) are unreachable. -/
def rs2Survival (mode : Rs2SensorMode) (ptype : Rs2ProductType) :
    Except PyErr ℚ :=
  if mode = .SLA then .ok (if ptype = .SGX then 1 else 1 / 2)
  else if mode = .U ∨ mode = .WU then
    .ok (if ptype = .SGX then 1 else 156 / 100)
  else if mode = .MF ∨ mode = .WMF ∨ mode = .F ∨ mode = .WF then
    .ok (if ptype = .SGX then 313 / 100 else 625 / 100)
  else if mode = .XF then .ok (if ptype = .SGX then 2 else 313 / 100)
  else if mode = .S ∨ mode = .EH then
    .ok (if ptype = .SGX then 8 else 125 / 10)
  else if mode = .W ∨ mode = .EL then
    .ok (if ptype = .SGX then 10 else 125 / 10)
  else .error .attributeError

/-- `Rs2Product._set_resolution` (rs2_product.py lines 160-212): the
metadata value wins when it is truthy (`if not def_res` treats both `None`
and `0.0` as missing); otherwise survival mode. -/
def rs2SetResolution (mode : Rs2SensorMode) (ptype : Rs2ProductType)
    (spacing : Rs2Spacing) : Except PyErr ℚ :=
  match rs2ReadDefRes spacing with
  | .error e => .error e
  | .ok (some q) => if q = 0 then rs2Survival mode ptype else .ok q
  | .ok none => rs2Survival mode ptype

/-- The sensor modes whose survival-mode branch comes before the defective
test at rs2_product.py line 194. -/
def rs2ReachableModes : List Rs2SensorMode :=
  [.SLA, .U, .WU, .MF, .WMF, .F, .WF, .XF, .S, .EH, .W, .EL]

/-- The (sensor mode, product type) default pixel-spacing lookup table the
specification describes, restricted to the modes the code can actually
serve (the table rows for FQ/WFQ, SCN, SCW and DVWF are dead code behind
the defective `WQ` reference). -/
def rs2DefaultSpacing (mode : Rs2SensorMode) (ptype : Rs2ProductType) : ℚ :=
  match mode with
  | .SLA => if ptype = .SGX then 1 else 1 / 2
  | .U | .WU => if ptype = .SGX then 1 else 156 / 100
  | .MF | .WMF | .F | .WF => if ptype = .SGX then 313 / 100 else 625 / 100
  | .XF => if ptype = .SGX then 2 else 313 / 100
  | .S | .EH => if ptype = .SGX then 8 else 125 / 10
  | .W | .EL => if ptype = .SGX then 10 else 125 / 10
  | _ => 0

/-! ## Sentinel-2 invalid-pixel management, processing baseline < 4.0 -/

/-- A 2-D raster of raw band values. -/
abbrev RGrid := List (List ℚ)

/-- A vector geometry, given by its rasterization on the band grid: `true`
at the pixels its polygons cover.  (Rasterization itself is the external
`rasterio.features.rasterize` collaborator; the embedding works directly
with the resulting pixel sets.) -/
abbrev Geom := List (List Bool)

/-- Pixel membership in a rasterized geometry. -/
def geomAt (g : Geom) (i j : ℕ) : Bool := (((g.get? i).getD []).get? j).getD false

/-- The GML vector masks of one S2 band for baselines < 4.0, as returned by
`_open_mask_lt_4_0`. -/
structure S2VecMasks where
  /-- `DETFOO` detector-footprint geometries. -/
  detfoo : List Geom
  /-- `NODATA` entries as `(gml_id, geometry)`. -/
  nodataVec : List (String × Geom)
  /-- `DEFECT` geometries. -/
  defect : List Geom
  /-- `SATURA` geometries. -/
  satura : List Geom
  /-- `TECQUA` entries as `(gml_id, geometry)`. -/
  tecqua : List (String × Geom)

/-- Modelled from the spec: `_set_nodata_mask` (base Product class, not
under `src/`): pixels flagged by the mask carry the nodata sentinel, the
others keep their value. -/
def applySetNodataMask (arr : RGrid) (mask : List (List Bool)) :
    List (List Px) :=
  List.zipWith
    (fun row mrow =>
      List.zipWith (fun v m => if m then none else some v) row mrow)
    arr mask

/-- The detector-footprint part shared by `_manage_invalid_pixels_lt_4_0`
and `_manage_nodata_lt_4_0` (s2_product.py lines 912-935 and 1032-1055):
with a non-empty DETFOO vector the rasterization is inverted (`fill`, i.e.
outside the detectors, is invalid); with an empty DETFOO vector a warning
is logged and the pixels whose raw value equals 0 (`s2_nodata = 0`) are
invalid.  Returns the mask and whether the warning was emitted. -/
def s2FootprintMask (detfoo : List Geom) (arr : RGrid) :
    List (List Bool) × Bool :=
  let h := arr.length
  let w := (arr.head?.getD []).length
  if detfoo.isEmpty then
    (arr.map fun row => row.map fun v => decide (v = 0), true)
  else
    ((List.range h).map fun i =>
      (List.range w).map fun j => ! detfoo.any fun g => geomAt g i j,
     false)

/-- `_manage_invalid_pixels_lt_4_0` (s2_product.py lines 897-969), returning
the masked band (through `_set_nodata_mask`) and whether the empty-DETFOO
warning was logged.  Faithful details:
* the NODATA vector is filtered to `gml_id == "QT_NODATA_PIXELS"`
  (line 943);
* the `DataFrame.append` calls for DEFECT, SATURA and TECQUA (lines
  944-952) discard their return value (`append` is not in-place), so those
  vectors never reach the rasterization;
* `mask[mask_pix] = self._mask_true` (line 967) indexes with the `uint8`
  rasterization, which is integer fancy indexing, not boolean masking:
  every row of `mask` whose index occurs among the values of `mask_pix`
  (0 outside the vector, 1 inside) is set to 1 entirely. -/
def manageInvalidPixelsLt40 (masks : S2VecMasks) (arr : RGrid) :
    List (List Px) × Bool :=
  let h := arr.length
  let w := (arr.head?.getD []).length
  let fp := s2FootprintMask masks.detfoo arr
  let nodataPix :=
    (masks.nodataVec.filter fun p => p.1 == "QT_NODATA_PIXELS").map Prod.snd
  let mask :=
    if nodataPix.isEmpty then fp.1
    else
      let maskPix := (List.range h).map fun i =>
        (List.range w).map fun j => nodataPix.any fun g => geomAt g i j
      let hasOut := maskPix.any fun row => row.any fun b => ! b
      let hasIn := maskPix.any fun row => row.any id
      fp.1.mapIdx fun i row =>
        if (i == 0 && hasOut) || (i == 1 && hasIn) then row.map fun _ => true
        else row
  (applySetNodataMask arr mask, fp.2)

/-- `_manage_nodata_lt_4_0` (s2_product.py lines 1017-1057): only the
detector-footprint mask (with the same empty-DETFOO fallback) is applied. -/
def manageNodataLt40 (masks : S2VecMasks) (arr : RGrid) :
    List (List Px) × Bool :=
  let fp := s2FootprintMask masks.detfoo arr
  (applySetNodataMask arr fp.1, fp.2)

/-! ## Sentinel-2 cloud bands -/

/-- The synthetic cloud band names (`eoreader.bands`). -/
inductive CloudBand
  | ALL_CLOUDS | CIRRUS | CLOUDS | SHADOWS | RAW_CLOUDS
  deriving DecidableEq

/-- Band name as a string (`to_str`). -/
def cloudBandName : CloudBand → String
  | .ALL_CLOUDS => "ALL_CLOUDS"
  | .CIRRUS => "CIRRUS"
  | .CLOUDS => "CLOUDS"
  | .SHADOWS => "SHADOWS"
  | .RAW_CLOUDS => "RAW_CLOUDS"

/-- `S2Product._has_cloud_band` (s2_product.py lines 1208-1217): S2 has
every cloud band except SHADOWS. -/
def s2HasCloudBand : CloudBand → Bool
  | .SHADOWS => false
  | _ => true

/-- Inputs of `_open_clouds_lt_4_0`: the CLOUDS GML vector (whether it has
a `maskType` column, and its entries) and the default band read at the
requested grid (`none` = nan pixels). -/
structure S2CloudSrc where
  hasMaskType : Bool
  cloudVec : List (String × Geom)
  defBand : List (List Px)

/-- `S2Product._rasterize` (s2_product.py lines 1370-1409) composed with
`_create_mask` (base class, modelled from the spec): 1 inside the vector,
0 outside (an empty geometry gives an all-`_mask_false` grid), and the
nodata sentinel wherever the default band itself is nan. -/
def s2RasterizeCloud (defBand : List (List Px)) (geoms : List Geom) :
    List (List Px) :=
  defBand.mapIdx fun i row =>
    row.mapIdx fun j p =>
      match p with
      | none => none
      | some _ => some (if geoms.any (fun g => geomAt g i j) then 1 else 0)

/-- One iteration of the band loop of `_open_clouds_lt_4_0` (s2_product.py
lines 1254-1276): ALL_CLOUDS and RAW_CLOUDS rasterize the whole vector,
CIRRUS and CLOUDS first filter `maskType` (an `AttributeError` from a
missing column yields an empty frame), and any other band raises
`InvalidTypeError` naming the band. -/
def s2CloudLt40 (src : S2CloudSrc) : CloudBand → Except PyErr (List (List Px))
  | .ALL_CLOUDS => .ok (s2RasterizeCloud src.defBand (src.cloudVec.map Prod.snd))
  | .CIRRUS =>
    let cirrus :=
      if src.hasMaskType then
        (src.cloudVec.filter fun p => p.1 == "CIRRUS").map Prod.snd
      else []
    .ok (s2RasterizeCloud src.defBand cirrus)
  | .CLOUDS =>
    let clouds :=
      if src.hasMaskType then
        (src.cloudVec.filter fun p => p.1 == "OPAQUE").map Prod.snd
      else []
    .ok (s2RasterizeCloud src.defBand clouds)
  | .RAW_CLOUDS => .ok (s2RasterizeCloud src.defBand (src.cloudVec.map Prod.snd))
  | .SHADOWS =>
    .error (.invalidTypeError
      ("Non existing cloud band for Sentinel-2: " ++ cloudBandName .SHADOWS))

/-- `_open_clouds_lt_4_0` (s2_product.py lines 1219-1286): an empty request
yields an empty dict, otherwise the bands are processed in order and the
first offending band aborts the call with its exception. -/
def s2OpenCloudsLt40 (src : S2CloudSrc) :
    List CloudBand → Except PyErr (List (CloudBand × List (List Px)))
  | [] => .ok []
  | b :: rest =>
    match s2CloudLt40 src b with
    | .error e => .error e
    | .ok arr =>
      match s2OpenCloudsLt40 src rest with
      | .error e => .error e
      | .ok tail => .ok ((b, arr) :: tail)

/-- One iteration of the band loop of `_open_clouds_gt_4_0` (s2_product.py
lines 1316-1328) over the CLASSI raster (band 1 = opaque clouds, band 2 =
cirrus): ALL_CLOUDS is their bitwise or, and any band other than the four
produced ones raises `InvalidTypeError` naming the band. -/
def s2CloudGt40 (raster : List (List (List ℕ))) :
    CloudBand → Except PyErr (List (List (List ℕ)))
  | .ALL_CLOUDS =>
    .ok [List.zipWith (List.zipWith Nat.lor) ((raster.get? 0).getD [])
          ((raster.get? 1).getD [])]
  | .CIRRUS => .ok [(raster.get? 1).getD []]
  | .CLOUDS => .ok [(raster.get? 0).getD []]
  | .RAW_CLOUDS => .ok raster
  | .SHADOWS =>
    .error (.invalidTypeError
      ("Non existing cloud band for Sentinel-2: " ++ cloudBandName .SHADOWS))

/-- `_open_clouds_gt_4_0` (s2_product.py lines 1288-1342). -/
def s2OpenCloudsGt40 (raster : List (List (List ℕ))) :
    List CloudBand → Except PyErr (List (CloudBand × List (List (List ℕ))))
  | [] => .ok []
  | b :: rest =>
    match s2CloudGt40 raster b with
    | .error e => .error e
    | .ok arr =>
      match s2OpenCloudsGt40 raster rest with
      | .error e => .error e
      | .ok tail => .ok ((b, arr) :: tail)

/-- The state `_open_clouds` dispatches on. -/
structure S2CloudState where
  baseline : ℚ
  vecSrc : S2CloudSrc
  rasterSrc : List (List (List ℕ))

/-- `S2Product._open_clouds` (s2_product.py lines 1344-1368): strategy
dispatch on the processing baseline. -/
def s2OpenClouds (st : S2CloudState) (bands : List CloudBand) :
    Except PyErr
      (List (CloudBand × List (List Px)) ⊕ List (CloudBand × List (List (List ℕ)))) :=
  if st.baseline < 4 then (s2OpenCloudsLt40 st.vecSrc bands).map .inl
  else (s2OpenCloudsGt40 st.rasterSrc bands).map .inr

/-! ## Sentinel-2 metadata accessors with fallbacks -/

/-- The granule metadata fields that `get_cloud_cover` and
`get_mean_sun_angles` query. -/
structure S2Mtd where
  /-- `findtext(".//CLOUDY_PIXEL_PERCENTAGE")` as seen by `float()`. -/
  cloudyPixelPct : XmlText
  /-- `find(".//Mean_Sun_Angle")`: `none` when the element is missing,
  otherwise the `(ZENITH_ANGLE, AZIMUTH_ANGLE)` texts. -/
  meanSunAngle : Option (XmlText × XmlText)
  deriving DecidableEq

/-- `S2Product.get_cloud_cover` (s2_product.py lines 1464-1491).  `read_mtd`
failing (`mtd = none`) raises `InvalidProductError` and `float(None)` raises
`TypeError`; both are caught, logging the warning and returning 0.  A
`ValueError` from `float` of non-numeric text is not caught.  The result
pairs the cover with whether the warning was logged. -/
def getCloudCover (mtd : Option S2Mtd) : Except PyErr (ℚ × Bool) :=
  match mtd with
  | none => .ok (0, true)
  | some m =>
    match pyFloat m.cloudyPixelPct with
    | .ok q => .ok (q, false)
    | .error .typeError => .ok (0, true)
    | .error e => .error e

/-- `S2Product.get_mean_sun_angles` (s2_product.py lines 1128-1161).  The
inner `except TypeError` re-raises as `InvalidProductError`, which the outer
handler turns into the `(0.0, 0.0)` fallback with a warning.  A missing
`Mean_Sun_Angle` element makes `mean_sun_angles.findtext` an attribute
access on `None` (`AttributeError`, uncaught), and non-numeric angle text
raises `ValueError` (uncaught).  Returns `(azimuth, zenith)` paired with
whether the warning was logged. -/
def getMeanSunAngles (mtd : Option S2Mtd) : Except PyErr ((ℚ × ℚ) × Bool) :=
  match mtd with
  | none => .ok ((0, 0), true)
  | some m =>
    match m.meanSunAngle with
    | none => .error .attributeError
    | some (zen, az) =>
      match pyFloat zen with
      | .error .typeError => .ok ((0, 0), true)
      | .error e => .error e
      | .ok z =>
        match pyFloat az with
        | .error .typeError => .ok ((0, 0), true)
        | .error e => .error e
        | .ok a => .ok ((a, z), false)

/-- `OrbitDirection` (eoreader.products.product, declared outside `src/`). -/
inductive OrbitDirection
  | ASCENDING | DESCENDING
  deriving DecidableEq

/-- Modelled from the spec: `OrbitDirection.from_value` (the `ListEnum`
machinery behind `eoreader.products.product.OrbitDirection` is not under
`src/`).  The spec states that `get_orbit_direction` never raises on
missing metadata but falls back with a documented value, and the caller in
`src/` catches `TypeError` for exactly the missing-value case, so a missing
value raises `TypeError` and an unknown string is an error. -/
def orbitFromValue : Option String → Except PyErr OrbitDirection
  | none => .error .typeError
  | some "ASCENDING" => .ok .ASCENDING
  | some "DESCENDING" => .ok .DESCENDING
  | some _ => .error .valueError

/-- `S2Product.get_orbit_direction` (s2_product.py lines 1536-1569).  A
failing `read_datatake_mtd` (`mtd = none`) or a missing
`SENSING_ORBIT_DIRECTION` value ends in the `except InvalidProductError`
branch, which returns `OrbitDirection.DESCENDING` and logs nothing.
Returns the direction paired with whether any warning was logged. -/
def getOrbitDirection (mtd : Option (Option String)) :
    Except PyErr (OrbitDirection × Bool) :=
  match mtd with
  | none => .ok (.DESCENDING, false)
  | some sensingOrbitDirection =>
    match orbitFromValue sensingOrbitDirection with
    | .ok od => .ok (od, false)
    | .error .typeError => .ok (.DESCENDING, false)
    | .error e => .error e

/-! ## `_load_bands` early return on an empty request

`S2Product._load_bands` (s2_product.py lines 1083-1114) and
`S3Product._load_bands` (s3_product.py lines 428-456) both start with
`if not bands: return {}`.  The collaborators (`get_band_paths`,
`_open_bands`, `_resolution_from_size`) are passed in as functions that
also report how many path resolutions / reads they perform, and the result
counts the total I/O operations of the call. -/

/-- `S2Product._load_bands`. -/
def s2LoadBands
    (getBandPaths : List Obn → Option ℚ → List (Obn × String) × ℕ)
    (openBands : List (Obn × String) → Option ℚ → Option (ℕ × ℕ) → List (Obn × MArr) × ℕ)
    (resFromSize : ℕ × ℕ → ℚ)
    (bands : List Obn) (resolution : Option ℚ) (size : Option (ℕ × ℕ)) :
    List (Obn × MArr) × ℕ :=
  if bands.isEmpty then ([], 0)
  else
    let resolution :=
      match resolution, size with
      | none, some sz => some (resFromSize sz)
      | r, _ => r
    let paths := getBandPaths bands resolution
    let arrays := openBands paths.1 resolution size
    (arrays.1, paths.2 + arrays.2)

/-- `S3Product._load_bands` (the extra `isinstance(bands, list)` wrapping
does not change a list argument). -/
def s3LoadBands
    (getBandPaths : List Obn → Option ℚ → List (Obn × String) × ℕ)
    (openBands : List (Obn × String) → Option ℚ → Option (ℕ × ℕ) → List (Obn × MArr) × ℕ)
    (resFromSize : ℕ × ℕ → ℚ)
    (bands : List Obn) (resolution : Option ℚ) (size : Option (ℕ × ℕ)) :
    List (Obn × MArr) × ℕ :=
  if bands.isEmpty then ([], 0)
  else
    let resolution :=
      match resolution, size with
      | none, some sz => some (resFromSize sz)
      | r, _ => r
    let paths := getBandPaths bands resolution
    let arrays := openBands paths.1 resolution size
    (arrays.1, paths.2 + arrays.2)

/-- Decidable equality of `Except` results, for evaluating the embedding on
concrete inputs. -/
instance {ε α : Type} [DecidableEq ε] [DecidableEq α] :
    DecidableEq (Except ε α) := fun x y =>
  match x, y with
  | .ok a, .ok b =>
    if h : a = b then .isTrue (by rw [h]) else .isFalse (by simp [h])
  | .error e, .error f =>
    if h : e = f then .isTrue (by rw [h]) else .isFalse (by simp [h])
  | .ok _, .error _ => .isFalse (by simp)
  | .error _, .ok _ => .isFalse (by simp)

/-! ## Theorems -/

/-- Pixelwise behaviour of `np.divide` at a zero denominator: the result is
masked there, whatever the numerator pixel holds. -/
theorem npDiv_zero_denom (a b : MArr) (i : ℕ) (hi : i < a.length)
    (hz : b.get? i = some (some 0)) :
    (npDiv a b).get? i = some none := by
  induction a generalizing b i with
  | nil => simp at hi
  | cons x xs ih =>
    cases b with
    | nil => simp at hz
    | cons y ys =>
      cases i with
      | zero =>
        simp at hz
        subst hz
        cases x <;> simp [npDiv]
      | succ n =>
        have hi2 : n < xs.length := by simpa using hi
        have hz2 : ys.get? n = some (some 0) := by simpa using hz
        simpa [npDiv] using ih ys n hi2 hz2

/-- Claim C7: for every pair of operand arrays fed to an index formula, a
division whose denominator is zero at some pixel never raises (the index
formulas, with `np.seterr(divide="ignore", invalid="ignore")` from
`index.py` line 27, are total: `npDiv` models `np.divide` and `normDiff`
models `_norm_diff`), and the result carries the nodata sentinel (`none`,
a masked pixel) at that pixel. -/
theorem c7_division_by_zero_safe (a b : MArr) (i : ℕ) :
    (i < a.length → b.get? i = some (some 0) →
      (npDiv a b).get? i = some none) ∧
    ((npAdd a b).get? i = some (some 0) →
      (normDiff a b).get? i = some none) := by
  refine ⟨fun hi hz => npDiv_zero_denom a b i hi hz, fun hz => ?_⟩
  have hlen : i < (npAdd a b).length := by
    rcases List.get?_eq_some.mp hz with ⟨h, _⟩
    exact h
  have hsub : i < (npSub a b).length := by
    simpa [npSub, npAdd, List.length_zipWith] using hlen
  simpa [normDiff] using npDiv_zero_denom (npSub a b) (npAdd a b) i hsub hz

/-- Witness for C7 at the concrete arrays `[0]` and `[0]`. -/
theorem c7_division_by_zero_safe_witness :
    (npDiv [some 0] [some 0]).get? 0 = some none ∧
    (normDiff [some 0] [some 0]).get? 0 = some none :=
  ⟨(c7_division_by_zero_safe [some 0] [some 0] 0).1 (by simp) rfl,
   (c7_division_by_zero_safe [some 0] [some 0] 0).2
     (by norm_num [npAdd, maskedBin])⟩

/-- Claim C1 (failing input): the deployed `NDVI` at one valid pixel with
`NIR = 2`, `RED = 1` returns the plain ratio `2`, while the normalized
difference `(NIR - RED) / (NIR + RED)` its docstring and the specification
state is `1/3`, and the two differ. -/
theorem c1_ndvi_failing_input :
    NDVI [(Obn.NIR, [some 2]), (Obn.RED, [some 1])] = .ok [some 2] ∧
    NDVI_spec [(Obn.NIR, [some 2]), (Obn.RED, [some 1])] = .ok [some (1 / 3)] ∧
    (2 : ℚ) ≠ 1 / 3 := by
  refine ⟨?_, ?_, by norm_num⟩
  · show (Except.ok [if (1 : ℚ) = 0 then none else some ((2 : ℚ) / 1)] :
      Except PyErr MArr) = .ok [some 2]
    norm_num
  · show (Except.ok [if (2 : ℚ) + 1 = 0 then none
        else some (((2 : ℚ) - 1) / ((2 : ℚ) + 1))] :
      Except PyErr MArr) = .ok [some (1 / 3)]
    norm_num

/-- Claim C2: for a Sentinel-2 jp2 band, `_to_reflectance` returns
`(raw + offset) / quantification_value` and records the physical no-data
value `(raw nodata + offset) / quantification_value`; when the datatake
metadata cannot be read, the offset defaults to 0.0 below processing
baseline 4.0 and to -1000.0 from 4.0 on, with quantification value
10000.0. -/
theorem c2_s2_reflectance :
    (∀ (st : S2RState) (arr : List ℚ) (band : Obn) (offset quantif : ℚ),
      s2OffsetQuantif st band = .ok (offset, quantif) →
      toReflectance st arr band true =
        .ok (arr.map fun v => (v + offset) / quantif,
             some ((st.baseNoData + offset) / quantif))) ∧
    (∀ (st : S2RState) (arr : List ℚ) (band : Obn),
      st.datatake = none →
      toReflectance st arr band true =
        .ok (arr.map fun v =>
              (v + if st.baseline < 4 then (0 : ℚ) else -1000) / 10000,
             some ((st.baseNoData +
               if st.baseline < 4 then (0 : ℚ) else -1000) / 10000))) := by
  constructor
  · intro st arr band offset quantif h
    simp [toReflectance, h]
  · intro st arr band h
    simp [toReflectance, s2OffsetQuantif, h]

/-- Witness for C2: a readable datatake with quantification value 10000 and
offset 0, and an unreadable datatake at baseline 4.0 (fallback offset
-1000). -/
theorem c2_s2_reflectance_witness :
    toReflectance ⟨.L1C, 3, some ⟨.num 10000, fun _ => .num 0⟩, 0⟩ [100] .RED
      true =
      .ok ([100].map fun v => (v + 0) / 10000, some (((0 : ℚ) + 0) / 10000)) ∧
    toReflectance ⟨.L2A, 4, none, 0⟩ [9999] .RED true =
      .ok ([9999].map fun v =>
            (v + if (4 : ℚ) < 4 then (0 : ℚ) else -1000) / 10000,
           some (((0 : ℚ) + if (4 : ℚ) < 4 then (0 : ℚ) else -1000) / 10000)) :=
  ⟨c2_s2_reflectance.1 ⟨.L1C, 3, some ⟨.num 10000, fun _ => .num 0⟩, 0⟩ [100]
      .RED 0 10000 (by norm_num [s2OffsetQuantif, pyFloat]),
   c2_s2_reflectance.2 ⟨.L2A, 4, none, 0⟩ [9999] .RED rfl⟩

/-- Claim C3 (counterexample): `S3Product.crs` is not memoized, so on a
concrete product with a 1x1 tie-point grid two sequential `crs()` calls
perform 4 netCDF reads, not at most one metadata read as the claim states.
(The two calls do return equal values.) -/
theorem c3_crs_counterexample :
    (s3CrsTwice [[10]] [[20]]).2 = 4 ∧ ¬ (s3CrsTwice [[10]] [[20]]).2 ≤ 1 :=
  ⟨rfl, by decide⟩

/-- Claim C3 as amended: two sequential `crs()` calls return equal values on
both products; on `S2Product` (whose `crs` carries `@cache`) a fresh
instance reads the source metadata exactly once across both calls, the
second call being served from the memo; but `S3Product.crs` has no `@cache`
decorator and re-reads the two tie-point netCDF arrays on every call (4
reads across two calls). -/
theorem c3_crs_memoization :
    (∀ st : S2CrsState,
      (s2Crs st (⟨none⟩, 0)).1 = (s2Crs st (s2Crs st (⟨none⟩, 0)).2).1 ∧
      ((s2Crs st (s2Crs st (⟨none⟩, 0)).2).2).2 = 1) ∧
    (∀ lat lon : List (List ℚ),
      (s3CrsTwice lat lon).1.1 = (s3CrsTwice lat lon).1.2 ∧
      (s3CrsTwice lat lon).2 = 4) :=
  ⟨fun _ => ⟨rfl, rfl⟩, fun _ _ => ⟨rfl, rfl⟩⟩

/-- On the modes whose branch precedes the defective test, survival mode
agrees with the lookup table. -/
theorem rs2Survival_eq_table (mode : Rs2SensorMode) (ptype : Rs2ProductType)
    (h : mode ∈ rs2ReachableModes) :
    rs2Survival mode ptype = .ok (rs2DefaultSpacing mode ptype) := by
  fin_cases h <;> rfl

/-- Every other defined mode reaches the defective
`[Rs2SensorMode.FQ, Rs2SensorMode.WQ]` test and raises `AttributeError`. -/
theorem rs2Survival_attr (mode : Rs2SensorMode) (ptype : Rs2ProductType)
    (h : mode ∉ rs2ReachableModes) :
    rs2Survival mode ptype = .error .attributeError := by
  cases mode <;> first | rfl | exact absurd (by decide) h

/-- The lookup-table defaults are positive. -/
theorem rs2DefaultSpacing_pos (mode : Rs2SensorMode) (ptype : Rs2ProductType)
    (h : mode ∈ rs2ReachableModes) : 0 < rs2DefaultSpacing mode ptype := by
  fin_cases h <;> (simp only [rs2DefaultSpacing]; split <;> norm_num)

/-- Claim C4 (counterexample): for a RADARSAT-2 ScanSAR Narrow SGF product
whose metadata cannot be read, `_set_resolution` does not return the 25.0 m
default of the claim: it raises `AttributeError`, because the branch test at
rs2_product.py line 194 references the nonexistent member
`Rs2SensorMode.WQ` before the ScanSAR branches are reached. -/
theorem c4_rs2_resolution_counterexample :
    rs2SetResolution .SCN .SGF .noMtd = .error .attributeError ∧
    rs2SetResolution .SCN .SGF .noMtd ≠ .ok 25 :=
  ⟨rfl, fun h => nomatch h⟩

/-- Claim C4 as amended: with no readable `sampledPixelSpacing`, the sensor
modes whose branch precedes the defective `WQ` test (SLA, U, WU, MF, WMF, F,
WF, XF, S, EH, W, EL) get the positive default pixel spacing of the
(mode, product type) lookup table; every other defined mode (SQ, WSQ, FQ,
WFQ, SCN, SCW, OSVN, DVWF) raises `AttributeError`, so the ScanSAR 25.0/50.0
defaults, the `NotImplementedError` branches and the final
`InvalidTypeError` are unreachable. -/
theorem c4_rs2_resolution_defaults (mode : Rs2SensorMode)
    (ptype : Rs2ProductType) :
    (mode ∈ rs2ReachableModes →
      rs2SetResolution mode ptype .noMtd = .ok (rs2DefaultSpacing mode ptype) ∧
      0 < rs2DefaultSpacing mode ptype) ∧
    (mode ∉ rs2ReachableModes →
      rs2SetResolution mode ptype .noMtd = .error .attributeError) :=
  ⟨fun hm => ⟨rs2Survival_eq_table mode ptype hm,
    rs2DefaultSpacing_pos mode ptype hm⟩,
   fun hm => rs2Survival_attr mode ptype hm⟩

/-- Witness for C4 at ScanSAR Narrow (defective branch) and Spotlight
(served from the table). -/
theorem c4_rs2_resolution_defaults_witness :
    rs2SetResolution .SCN .SGX .noMtd = .error .attributeError ∧
    (rs2SetResolution .SLA .SGX .noMtd = .ok (rs2DefaultSpacing .SLA .SGX) ∧
      0 < rs2DefaultSpacing .SLA .SGX) :=
  ⟨(c4_rs2_resolution_defaults .SCN .SGX).2 (by decide),
   (c4_rs2_resolution_defaults .SLA .SGX).1 (by decide)⟩

/-- Masking a row against its own zero-test marks exactly the zero
entries. -/
theorem zip_row_zero_mask (row : List ℚ) :
    List.zipWith (fun v m => if m then none else some v) row
        (row.map fun v => decide (v = 0)) =
      row.map fun v => if v = 0 then none else some v := by
  induction row with
  | nil => rfl
  | cons v vs ih =>
    by_cases h : v = 0 <;> simp [h, ih]

/-- Masking a raster against its own zero-test marks exactly the zero
pixels. -/
theorem setNodata_zero_mask (arr : RGrid) :
    applySetNodataMask arr
        (arr.map fun row => row.map fun v => decide (v = 0)) =
      arr.map fun row => row.map fun v => if v = 0 then none else some v := by
  induction arr with
  | nil => rfl
  | cons row rows ih =>
    simpa [applySetNodataMask, zip_row_zero_mask row]
      using ih

/-- Claim C5 (counterexample): on a 2x2 band of raw value 5 everywhere,
with an empty DETFOO vector but a pixel-nodata vector holding one
`QT_NODATA_PIXELS` geometry over pixel (1,1), `_manage_invalid_pixels_lt_4_0`
marks every pixel invalid (the `uint8` fancy indexing at line 967 blankets
rows 0 and 1), even though no raw value equals 0 — so it does not mark
exactly the raw-zero pixels. -/
theorem c5_invalid_pixels_counterexample :
    manageInvalidPixelsLt40
        ⟨[], [("QT_NODATA_PIXELS", [[false, false], [false, true]])], [], [], []⟩
        [[5, 5], [5, 5]] =
      ([[none, none], [none, none]], true) ∧
    (5 : ℚ) ≠ 0 := by
  constructor
  · decide
  · norm_num

/-- Claim C5 as amended: when the DETFOO vector is empty and the
pixel-nodata vector contributes no `QT_NODATA_PIXELS` entry, invalid-pixel
management (and likewise `_manage_nodata_lt_4_0`) marks exactly the pixels
whose raw value equals 0 as invalid and emits the warning. -/
theorem c5_empty_detfoo_fallback (masks : S2VecMasks) (arr : RGrid)
    (hdet : masks.detfoo = [])
    (hnod : masks.nodataVec.filter (fun p => p.1 == "QT_NODATA_PIXELS") = []) :
    manageInvalidPixelsLt40 masks arr =
      (arr.map fun row => row.map fun v => if v = 0 then none else some v,
        true) ∧
    manageNodataLt40 masks arr =
      (arr.map fun row => row.map fun v => if v = 0 then none else some v,
        true) := by
  have hfp : s2FootprintMask masks.detfoo arr =
      (arr.map fun row => row.map fun v => decide (v = 0), true) := by
    simp [s2FootprintMask, hdet]
  constructor
  · simp [manageInvalidPixelsLt40, hfp, hnod, setNodata_zero_mask]
  · simp [manageNodataLt40, hfp, setNodata_zero_mask]

/-- Witness for C5 at a 1x2 band with raw values 0 and 7 and empty
vectors. -/
theorem c5_empty_detfoo_fallback_witness :
    manageInvalidPixelsLt40 ⟨[], [], [], [], []⟩ [[0, 7]] =
      ([[none, some 7]], true) ∧
    manageNodataLt40 ⟨[], [], [], [], []⟩ [[0, 7]] =
      ([[none, some 7]], true) :=
  ⟨((c5_empty_detfoo_fallback ⟨[], [], [], [], []⟩ [[0, 7]] rfl rfl).1).trans
      (by decide),
   ((c5_empty_detfoo_fallback ⟨[], [], [], [], []⟩ [[0, 7]] rfl rfl).2).trans
      (by decide)⟩

/-- The vector-mask cloud loader aborts with `InvalidTypeError` naming
SHADOWS whenever SHADOWS is requested. -/
theorem s2OpenCloudsLt40_shadows (src : S2CloudSrc) (bands : List CloudBand)
    (h : CloudBand.SHADOWS ∈ bands) :
    s2OpenCloudsLt40 src bands =
      .error (.invalidTypeError
        "Non existing cloud band for Sentinel-2: SHADOWS") := by
  induction bands with
  | nil => cases h
  | cons b rest ih =>
    cases h with
    | head => simp [s2OpenCloudsLt40, s2CloudLt40, cloudBandName]
    | tail _ hmem =>
      cases b <;> simp [s2OpenCloudsLt40, s2CloudLt40, cloudBandName, ih hmem]

/-- The raster-mask cloud loader aborts with `InvalidTypeError` naming
SHADOWS whenever SHADOWS is requested. -/
theorem s2OpenCloudsGt40_shadows (raster : List (List (List ℕ)))
    (bands : List CloudBand) (h : CloudBand.SHADOWS ∈ bands) :
    s2OpenCloudsGt40 raster bands =
      .error (.invalidTypeError
        "Non existing cloud band for Sentinel-2: SHADOWS") := by
  induction bands with
  | nil => cases h
  | cons b rest ih =>
    cases h with
    | head => simp [s2OpenCloudsGt40, s2CloudGt40, cloudBandName]
    | tail _ hmem =>
      cases b <;> simp [s2OpenCloudsGt40, s2CloudGt40, cloudBandName, ih hmem]

/-- Claim C6: Sentinel-2 does not produce the SHADOWS cloud band
(`_has_cloud_band` is false for it), and requesting SHADOWS through the
cloud-band loading operation raises `InvalidTypeError` naming the band on
every product state and band list — never returning an array for it. -/
theorem c6_shadows_invalid_type (st : S2CloudState) (bands : List CloudBand)
    (h : CloudBand.SHADOWS ∈ bands) :
    s2OpenClouds st bands =
      .error (.invalidTypeError
        "Non existing cloud band for Sentinel-2: SHADOWS") ∧
    s2HasCloudBand .SHADOWS = false := by
  refine ⟨?_, rfl⟩
  unfold s2OpenClouds
  split
  · rw [s2OpenCloudsLt40_shadows st.vecSrc bands h]
    rfl
  · rw [s2OpenCloudsGt40_shadows st.rasterSrc bands h]
    rfl

/-- Witness for C6 on a concrete product state and the request
`[ALL_CLOUDS, SHADOWS]`. -/
theorem c6_shadows_invalid_type_witness :
    s2OpenClouds ⟨3, ⟨true, [], [[some 1]]⟩, []⟩ [.ALL_CLOUDS, .SHADOWS] =
      .error (.invalidTypeError
        "Non existing cloud band for Sentinel-2: SHADOWS") ∧
    s2HasCloudBand .SHADOWS = false :=
  c6_shadows_invalid_type ⟨3, ⟨true, [], [[some 1]]⟩, []⟩ [.ALL_CLOUDS, .SHADOWS]
    (List.Mem.tail _ (List.Mem.head _))

/-- Claim C8 (counterexample): the fallbacks of `get_cloud_cover` and
`get_mean_sun_angles` do not cover every malformed metadata: a present but
non-numeric `CLOUDY_PIXEL_PERCENTAGE` raises an uncaught `ValueError`, and
a missing `Mean_Sun_Angle` element raises an uncaught `AttributeError`, so
both operations can raise to the caller. -/
theorem c8_metadata_fallback_counterexample :
    getCloudCover (some ⟨.malformed, some (.num 1, .num 2)⟩) =
      .error .valueError ∧
    getMeanSunAngles (some ⟨.num 3, none⟩) = .error .attributeError :=
  ⟨rfl, rfl⟩

/-- Claim C8 as amended: when the metadata cannot be read at all, or when
the queried field is absent (`findtext` returning `None`, hence
`TypeError`), `get_cloud_cover` returns 0 and `get_mean_sun_angles` returns
(0.0, 0.0), each with a warning and without raising; but a present
non-numeric field raises `ValueError` and a missing `Mean_Sun_Angle`
element raises `AttributeError`, both uncaught. -/
theorem c8_metadata_fallbacks :
    getCloudCover none = .ok (0, true) ∧
    getMeanSunAngles none = .ok ((0, 0), true) ∧
    (∀ m : S2Mtd, m.cloudyPixelPct = .absent →
      getCloudCover (some m) = .ok (0, true)) ∧
    (∀ (m : S2Mtd) (zen az : XmlText), m.meanSunAngle = some (zen, az) →
      zen = .absent → getMeanSunAngles (some m) = .ok ((0, 0), true)) := by
  refine ⟨rfl, rfl, ?_, ?_⟩
  · intro m h
    simp [getCloudCover, h, pyFloat]
  · intro m zen az hm hz
    simp [getMeanSunAngles, hm, hz, pyFloat]

/-- Witness for C8 on concrete metadata with absent fields. -/
theorem c8_metadata_fallbacks_witness :
    getCloudCover (some ⟨.absent, none⟩) = .ok (0, true) ∧
    getMeanSunAngles (some ⟨.num 5, some (.absent, .num 1)⟩) =
      .ok ((0, 0), true) :=
  ⟨c8_metadata_fallbacks.2.2.1 ⟨.absent, none⟩ rfl,
   c8_metadata_fallbacks.2.2.2 ⟨.num 5, some (.absent, .num 1)⟩ .absent
     (.num 1) rfl rfl⟩

/-- Claim C9: for every product state (arbitrary collaborators), resolution
and size, loading an empty band list returns the empty mapping and performs
no path resolution and no read, on both the S2 and the S3 variant of
`_load_bands`. -/
theorem c9_load_bands_empty
    (getBandPaths : List Obn → Option ℚ → List (Obn × String) × ℕ)
    (openBands : List (Obn × String) → Option ℚ → Option (ℕ × ℕ) →
      List (Obn × MArr) × ℕ)
    (resFromSize : ℕ × ℕ → ℚ)
    (resolution : Option ℚ) (size : Option (ℕ × ℕ)) :
    s2LoadBands getBandPaths openBands resFromSize [] resolution size =
      ([], 0) ∧
    s3LoadBands getBandPaths openBands resFromSize [] resolution size =
      ([], 0) :=
  ⟨rfl, rfl⟩

/-- Claim C10: when the datatake metadata is absent, and when it is present
but the `SENSING_ORBIT_DIRECTION` value is missing, `get_orbit_direction`
returns `OrbitDirection.DESCENDING` without raising and without logging any
warning. -/
theorem c10_orbit_direction_default :
    getOrbitDirection none = .ok (.DESCENDING, false) ∧
    getOrbitDirection (some none) = .ok (.DESCENDING, false) :=
  ⟨rfl, rfl⟩

end EOReader
